import Mathlib

/-!
# Layered user service: handler, service, repository

A shallow embedding of the request pipeline of the repository

* `api/handler/user`   : `UserHandler.CreateUser`, `UserHandler.GetUserById`
* `api/service/user`   : `createUserService.Execute`, `getUserByIdService.Execute`
* `api/repository`     : `userRepository.GetUserById`, `userRepository.CreateUser`
* `lib/environment`    : `New`, `GetString`
* `main.go`            : `main`

Go values are embedded as follows.  A nilable pointer `*T` is `Option T`, an
`error` interface value is `Option GoError` (`none` is `nil`), a method with
side effects on the store is a function `σ → result × σ` over the state `σ` of
the store, and an interface is a structure of such functions.
-/

set_option autoImplicit false

namespace Boilerplate

/-! ## Go errors -/

/-- Go error values, as far as this program can observe them: a value made by
`errors.New`, the sentinel `gorm.ErrRecordNotFound`, or an error wrapping
another one (`fmt.Errorf` with `%w`).  Addresses of freshly allocated error
values are not part of the model: no code of the repository keeps one. -/
inductive GoError where
  | New (text : String)
  | ErrRecordNotFound
  | Wrap (text : String) (inner : GoError)
  deriving DecidableEq, Repr

namespace GoError

/-- The method `Error()` of an error value. -/
def Error : GoError → String
  | New text => text
  | ErrRecordNotFound => "record not found"
  | Wrap text _ => text

/-- The chain walk of `errors.Is` on a non-nil error. -/
def Is : GoError → GoError → Bool
  | Wrap text inner, target => decide (Wrap text inner = target) || Is inner target
  | err, target => decide (err = target)

end GoError

namespace errors

/-- Go `errors.New`. -/
def New (text : String) : GoError := GoError.New text

/-- Go `errors.Is`: a nil error matches nothing. -/
def Is (err : Option GoError) (target : GoError) : Bool :=
  match err with
  | none => false
  | some e => e.Is target

end errors

namespace gorm

/-- The sentinel `gorm.ErrRecordNotFound`. -/
def ErrRecordNotFound : GoError := GoError.ErrRecordNotFound

end gorm

/-! ## Entity -/

namespace entity

/-- Modelled from the spec: the declaration of `entity.User`
(`lib/database/entity`) is not among the sources; section 3 of the
specification gives its shape: `id` (integer), `name` (text), `phone`
(optional text).  The default value is the Go zero value `entity.User{}`. -/
structure User where
  ID : Int := 0
  Name : String := ""
  Phone : Option String := none
  deriving DecidableEq, Repr

end entity

open entity (User)

/-! ## The store handle `*gorm.DB` -/

/-- The two methods of `*gorm.DB` the repository calls, over a store state `σ`.
`First dest id` returns the record written through the pointer `dest` and
`result.Error`; `Create user` returns the record as the store leaves it behind
the pointer (with its assigned id) and `result.Error`. -/
structure DB (σ : Type) where
  First : User → Int → σ → (User × Option GoError) × σ
  Create : User → σ → (User × Option GoError) × σ

/-! ## Repository (`api/repository/user.go`) -/

namespace repository

/-- Interface `UserRepository`.  `CreateUser` takes a pointer; the record left
behind that pointer is returned next to the error. -/
structure UserRepository (σ : Type) where
  GetUserById : Int → σ → (Option User × Option GoError) × σ
  CreateUser : User → σ → (User × Option GoError) × σ

/-- Struct `userRepository`. -/
structure userRepository (σ : Type) where
  db : DB σ

/-- Method `(*userRepository).GetUserById`. -/
def userRepository.GetUserById {σ : Type} (r : userRepository σ) (id : Int) (s : σ) :
    (Option User × Option GoError) × σ :=
  let user : User := {}
  let result := r.db.First user id s
  if errors.Is result.1.2 gorm.ErrRecordNotFound then
    ((none, some (errors.New "user not found")), result.2)
  else
    ((some result.1.1, result.1.2), result.2)

/-- Method `(*userRepository).CreateUser`. -/
def userRepository.CreateUser {σ : Type} (r : userRepository σ) (user : User) (s : σ) :
    (User × Option GoError) × σ :=
  r.db.Create user s

/-- Constructor `NewUserRepository`. -/
def NewUserRepository {σ : Type} (db : DB σ) : UserRepository σ :=
  { GetUserById := userRepository.GetUserById { db := db }
    CreateUser := userRepository.CreateUser { db := db } }

end repository

open repository (UserRepository NewUserRepository)

/-! ## Services (`api/service/user`) -/

namespace query

/-- Interface `GetUserByIdService`. -/
structure GetUserByIdService (σ : Type) where
  Execute : Int → σ → (Option User × Option GoError) × σ

/-- Struct `getUserByIdService`. -/
structure getUserByIdService (σ : Type) where
  userRepo : UserRepository σ

/-- Method `(*getUserByIdService).Execute`. -/
def getUserByIdService.Execute {σ : Type} (svc : getUserByIdService σ) (id : Int) (s : σ) :
    (Option User × Option GoError) × σ :=
  svc.userRepo.GetUserById id s

/-- Constructor `NewGetUserByIdService`. -/
def NewGetUserByIdService {σ : Type} (userRepo : UserRepository σ) : GetUserByIdService σ :=
  { Execute := getUserByIdService.Execute { userRepo := userRepo } }

end query

namespace command

/-- Interface `CreateUserService`. -/
structure CreateUserService (σ : Type) where
  Execute : String → Option String → σ → Option GoError × σ

/-- Struct `createUserService`. -/
structure createUserService (σ : Type) where
  userRepo : UserRepository σ

/-- Method `(*createUserService).Execute`. -/
def createUserService.Execute {σ : Type} (svc : createUserService σ)
    (name : String) (phone : Option String) (s : σ) : Option GoError × σ :=
  let user : User := { Name := name, Phone := phone }
  let r := svc.userRepo.CreateUser user s
  (r.1.2, r.2)

/-- Constructor `NewCreateUserService`. -/
def NewCreateUserService {σ : Type} (repo : UserRepository σ) : CreateUserService σ :=
  { Execute := createUserService.Execute { userRepo := repo } }

end command

open query (GetUserByIdService NewGetUserByIdService)
open command (CreateUserService NewCreateUserService)

/-! ## `strconv.Atoi` -/

namespace strconv

/-- The two causes a `*strconv.NumError` can carry. -/
inductive Cause where
  | InvalidSyntax
  | OutOfRange
  deriving DecidableEq, Repr

/-- Go `strconv.NumError`. -/
structure NumError where
  Func : String
  Num : String
  Err : Cause
  deriving DecidableEq, Repr

/-- The digit loop of `ParseUint` for base 10 and 64 bits: `n` is the value
read so far.  A byte that is not a decimal digit is a syntax error, a value
that does not fit in 64 bits a range error. -/
def parseDigits : List Char → Nat → Except Cause Nat
  | [], n => .ok n
  | c :: cs, n =>
    if c.isDigit then
      if n ≥ 2 ^ 64 / 10 + 1 then .error .OutOfRange
      else if n * 10 + (c.toNat - 48) ≥ 2 ^ 64 then .error .OutOfRange
      else parseDigits cs (n * 10 + (c.toNat - 48))
    else .error .InvalidSyntax

/-- Go `strconv.Atoi` on a 64-bit platform: an optional sign followed by at
least one decimal digit, with a value in the range of `int`.  The result is
the pair `(int, error)` that Go returns. -/
def Atoi (str : String) : Int × Option NumError :=
  let fail (c : Cause) (v : Int) : Int × Option NumError :=
    (v, some { Func := "Atoi", Num := str, Err := c })
  let run (neg : Bool) (digits : List Char) : Int × Option NumError :=
    match digits with
    | [] => fail .InvalidSyntax 0
    | _ =>
      match parseDigits digits 0 with
      | .error .InvalidSyntax => fail .InvalidSyntax 0
      | .error .OutOfRange => fail .OutOfRange (if neg then -(2 ^ 63) else 2 ^ 63 - 1)
      | .ok un =>
        if !neg && un ≥ 2 ^ 63 then fail .OutOfRange (2 ^ 63 - 1)
        else if neg && un > 2 ^ 63 then fail .OutOfRange (-(2 ^ 63))
        else (if neg then -(un : Int) else (un : Int), none)
  match str.toList with
  | [] => fail .InvalidSyntax 0
  | '+' :: rest => run false rest
  | '-' :: rest => run true rest
  | digits => run false digits

end strconv

/-! ## Handler (`api/handler/user`) -/

namespace fiber

def StatusOK : Nat := 200
def StatusCreated : Nat := 201
def StatusBadRequest : Nat := 400
def StatusNotFound : Nat := 404
def StatusInternalServerError : Nat := 500

end fiber

namespace user

/-- Struct `CreateUserRequest`. -/
structure CreateUserRequest where
  Name : String := ""
  Phone : Option String := none
  deriving DecidableEq, Repr

/-- What a handler reads from `*fiber.Ctx`: the path parameters and the body
parser, which fills the request struct behind the pointer it is given and
returns an error when the body cannot be parsed. -/
structure Ctx where
  Params : String → String
  BodyParser : CreateUserRequest → CreateUserRequest × Option GoError

/-- The value handed to `c.JSON`: a `fiber.Map` with string values, or a
`*entity.User`. -/
inductive Payload where
  | Map (entries : List (String × String))
  | User (u : Option User)
  deriving DecidableEq, Repr

/-- What a handler writes to `*fiber.Ctx`: the status code and the JSON payload. -/
structure Response where
  status : Nat
  body : Payload
  deriving DecidableEq, Repr

/-- Struct `UserHandler`. -/
structure UserHandler (σ : Type) where
  getUserByIdService : GetUserByIdService σ
  createUserService : CreateUserService σ

/-- Constructor `NewUserHandler`. -/
def NewUserHandler {σ : Type} (getUserByIdService : GetUserByIdService σ)
    (createUserService : CreateUserService σ) : UserHandler σ :=
  { getUserByIdService := getUserByIdService
    createUserService := createUserService }

/-- Method `(*UserHandler).CreateUser`. -/
def UserHandler.CreateUser {σ : Type} (h : UserHandler σ) (c : Ctx) (s : σ) : Response × σ :=
  let request : CreateUserRequest := {}
  let parsed := c.BodyParser request
  match parsed.2 with
  | some _ =>
    ({ status := fiber.StatusBadRequest, body := .Map [("error", "Invalid input")] }, s)
  | none =>
    let request := parsed.1
    let r := h.createUserService.Execute request.Name request.Phone s
    match r.1 with
    | some _ =>
      ({ status := fiber.StatusInternalServerError,
         body := .Map [("error", "Could not create user")] }, r.2)
    | none =>
      ({ status := fiber.StatusCreated,
         body := .Map [("message", "User created successfully")] }, r.2)

/-- Method `(*UserHandler).GetUserById`. -/
def UserHandler.GetUserById {σ : Type} (h : UserHandler σ) (c : Ctx) (s : σ) : Response × σ :=
  let parsed := strconv.Atoi (c.Params "id")
  match parsed.2 with
  | some _ =>
    ({ status := fiber.StatusBadRequest, body := .Map [("error", "invalid user id")] }, s)
  | none =>
    let id := parsed.1
    let r := h.getUserByIdService.Execute id s
    match r.1.2 with
    | some err =>
      ({ status := fiber.StatusNotFound, body := .Map [("error", err.Error)] }, r.2)
    | none =>
      ({ status := fiber.StatusOK, body := .User r.1.1 }, r.2)

/-! ### Recording service calls -/

/-- One call of a service method, with its arguments. -/
inductive Call where
  | GetUserById (id : Int)
  | CreateUser (name : String) (phone : Option String)
  deriving DecidableEq, Repr

/-- The handler `h` with both services wrapped so that every call of `Execute`
is appended, with its arguments, to a log kept next to the store state. -/
def UserHandler.recording {σ : Type} (h : UserHandler σ) : UserHandler (σ × List Call) :=
  { getUserByIdService :=
      { Execute := fun id st =>
          let r := h.getUserByIdService.Execute id st.1
          (r.1, (r.2, st.2 ++ [Call.GetUserById id])) }
    createUserService :=
      { Execute := fun name phone st =>
          let r := h.createUserService.Execute name phone st.1
          (r.1, (r.2, st.2 ++ [Call.CreateUser name phone])) } }

end user

open user (UserHandler NewUserHandler Ctx Response Payload Call CreateUserRequest)

/-! ## A model of the persistence store -/

/-- Modelled from the spec: the persistence store behind `*gorm.DB` is an
external collaborator; section 6 of the specification gives its interface,
`insert(record) -> id` and `fetchById(id) -> record | notFoundSignal`.  The
state is the table of records in insertion order and the next id of the
sequence. -/
structure ModelStore where
  rows : List User
  nextID : Int
  deriving DecidableEq, Repr

namespace ModelStore

/-- The store before any insert. -/
def empty : ModelStore := { rows := [], nextID := 1 }

/-- Modelled from the spec: `fetchById`.  The record with the given id is
written to the destination; when there is none the destination is left as it
was and the not-found signal `gorm.ErrRecordNotFound` is returned. -/
def First (dest : User) (id : Int) (s : ModelStore) : (User × Option GoError) × ModelStore :=
  match s.rows.find? (fun u => u.ID == id) with
  | some u => ((u, none), s)
  | none => ((dest, some gorm.ErrRecordNotFound), s)

/-- Modelled from the spec: `insert`.  The record is stored under the next id
of the sequence, which is written back to the record. -/
def Create (user : User) (s : ModelStore) : (User × Option GoError) × ModelStore :=
  let stored : User := { user with ID := s.nextID }
  ((stored, none), { rows := s.rows ++ [stored], nextID := s.nextID + 1 })

/-- The model store as a store handle. -/
def db : DB ModelStore := { First := First, Create := Create }

/-- Every stored id was handed out by the sequence: it lies below the next id. -/
def WF (s : ModelStore) : Prop := ∀ u ∈ s.rows, u.ID < s.nextID

end ModelStore

/-- The wiring of `main`: one repository over the store handle, the two
services over it, and the handler over the services. -/
def wire {σ : Type} (db : DB σ) : UserHandler σ :=
  let userRepo := NewUserRepository db
  let getUserByIdService := NewGetUserByIdService userRepo
  let createUserService := NewCreateUserService userRepo
  NewUserHandler getUserByIdService createUserService

/-! ## Configuration (`lib/environment/env.go`) and `main` -/

namespace environment

def EnvKey : String := "ENV"
def ServicePort : String := "SERVICE_PORT"
def DsnKey : String := "DB_DSN"

/-- The settings held by viper once the configuration is read: the value found
for a key, if any. -/
abbrev Settings := String → Option String

/-- The loop of `New`, `for i := uint(1); i < dirDepth; i++`, on 64-bit
unsigned integers. -/
def New.loop (dirDepth : Nat) (hd : dirDepth < 2 ^ 64) (i : Nat) (configDir : String) : String :=
  if i < dirDepth then
    New.loop dirDepth hd ((i + 1) % 2 ^ 64) (configDir ++ "/..")
  else configDir
termination_by dirDepth - i
decreasing_by
  have h1 : (i + 1) % 2 ^ 64 = i + 1 := Nat.mod_eq_of_lt (by omega)
  omega

/-- The directory `New` hands to `viper.AddConfigPath`. -/
def New.configDir (dirDepth : Nat) (hd : dirDepth < 2 ^ 64) : String :=
  if dirDepth = 0 then "."
  else New.loop dirDepth hd 1 ".."

/-- The path of `n` parent-directory segments joined by a slash. -/
def parents (n : Nat) : String := "/".intercalate (List.replicate n "..")

/-- Function `New`: `ReadInConfig` is viper reading `app.env` in the given
directory; a failure ends the process through `log.Fatalf`, whose message is
the error result here. -/
def New (ReadInConfig : String → Except GoError Settings)
    (dirDepth : Nat) (hd : dirDepth < 2 ^ 64) : Except String Settings :=
  match ReadInConfig (New.configDir dirDepth hd) with
  | .error err => .error ("Error reading config file, " ++ err.Error)
  | .ok v => .ok v

/-- The call `viper.IsSet`. -/
def IsSet (v : Settings) (key : String) : Bool := (v key).isSome

/-- Function `GetString`; the error result is the value it panics with. -/
def GetString (v : Settings) (key : String) : Except String String :=
  if !IsSet v key then .error ("failed to get environment key: " ++ key)
  else .ok ((v key).getD "")

end environment

/-- What `main` needs from outside the process: the configuration file, the
database and the listener. -/
structure World where
  ReadInConfig : String → Except GoError environment.Settings
  Open : String → Option GoError
  AutoMigrate : Option GoError
  Listen : String → Option GoError

/-- How a run of `main` ends. -/
inductive Outcome where
  | Fatal (msg : String)
  | Panic (msg : String)
  | Served (addr : String)
  deriving DecidableEq, Repr

namespace database

/-- Function `InitDatabaseWithDSN`; the result is the message of `log.Fatal`
when the connection or the migration fails. -/
def InitDatabaseWithDSN (w : World) (dsn : String) : Option String :=
  match w.Open dsn with
  | some err => some ("Failed to connect to the database:" ++ err.Error)
  | none =>
    match w.AutoMigrate with
    | some err => some ("Failed to migrate database:" ++ err.Error)
    | none => none

end database

/-- Function `main`: the way the process ends, given the world it runs in. -/
def main (w : World) : Outcome :=
  match environment.New w.ReadInConfig 0 (by decide) with
  | .error msg => .Fatal msg
  | .ok v =>
    match environment.GetString v environment.DsnKey with
    | .error msg => .Panic msg
    | .ok dsn =>
      if dsn = "" then .Fatal "DB_DSN not set in environment"
      else
        match database.InitDatabaseWithDSN w dsn with
        | some msg => .Fatal msg
        | none =>
          match environment.GetString v environment.ServicePort with
          | .error msg => .Panic msg
          | .ok port =>
            let port := if port = "" then "9090" else port
            match w.Listen (":" ++ port) with
            | some err => .Panic err.Error
            | none => .Served (":" ++ port)

/-! ## Sample requests -/

/-- The request of the scenario `GET /api/v1/user/abc`. -/
def ctxGetAbc : Ctx :=
  { Params := fun _ => "abc", BodyParser := fun r => (r, none) }

/-- A create request whose body cannot be parsed. -/
def ctxBadBody : Ctx :=
  { Params := fun _ => "", BodyParser := fun r => (r, some (errors.New "unexpected end of JSON input")) }

/-- The create request of the scenario with name Ada and phone 123. -/
def ctxCreateAda : Ctx :=
  { Params := fun _ => "",
    BodyParser := fun _ => ({ Name := "Ada", Phone := some "123" }, none) }

/-- The request `GET /api/v1/user/1`. -/
def ctxGetOne : Ctx :=
  { Params := fun _ => "1", BodyParser := fun r => (r, none) }

/-- The request of the scenario `GET /api/v1/user/9999`. -/
def ctxGetMissing : Ctx :=
  { Params := fun _ => "9999", BodyParser := fun r => (r, none) }

/-- A store handle whose every query fails with an error that is not the
not-found sentinel (as a query hook or a driver may return), and whose message
reads user not found. -/
def failingDB : DB Unit :=
  { First := fun dest _ s => ((dest, some (errors.New "user not found")), s)
    Create := fun user s => ((user, some (errors.New "user not found")), s) }

/-- A world whose configuration file sets `DB_DSN` and leaves `SERVICE_PORT`
unset, and where the database and the listener do not fail. -/
def worldPortUnset : World :=
  { ReadInConfig := fun _ =>
      .ok (fun key => if key = "DB_DSN" then some "postgres://localhost/app" else none)
    Open := fun _ => none
    AutoMigrate := none
    Listen := fun _ => none }

/-- A world whose configuration file sets `SERVICE_PORT` to the empty string. -/
def worldPortEmpty : World :=
  { ReadInConfig := fun _ =>
      .ok (fun key =>
        if key = "DB_DSN" then some "postgres://localhost/app"
        else if key = "SERVICE_PORT" then some "" else none)
    Open := fun _ => none
    AutoMigrate := none
    Listen := fun _ => none }

/-! ## Recording repository calls -/

namespace repository

/-- One call of a repository method, with its argument. -/
inductive Call where
  | GetUserById (id : Int)
  | CreateUser (user : User)
  deriving DecidableEq, Repr

/-- The repository `repo` wrapped so that every call of one of its methods is
appended, with its argument, to a log kept next to the store state. -/
def UserRepository.recording {σ : Type} (repo : UserRepository σ) :
    UserRepository (σ × List Call) :=
  { GetUserById := fun id st =>
      let r := repo.GetUserById id st.1
      (r.1, (r.2, st.2 ++ [Call.GetUserById id]))
    CreateUser := fun user st =>
      let r := repo.CreateUser user st.1
      (r.1, (r.2, st.2 ++ [Call.CreateUser user])) }

end repository

/-! ## Theorems: the handlers -/

/-- C1: when `strconv.Atoi` fails on the id path segment, `GetUserById`
answers 400 with the body error = "invalid user id", and no service method is
called: the log of service calls and the store state are left as they were. -/
theorem GetUserById_invalid_id {σ : Type} (h : UserHandler σ) (c : Ctx) (s : σ)
    (log : List Call) (e : strconv.NumError)
    (hparse : (strconv.Atoi (c.Params "id")).2 = some e) :
    h.recording.GetUserById c (s, log)
      = ({ status := 400, body := .Map [("error", "invalid user id")] }, (s, log)) := by
  simp [UserHandler.GetUserById, hparse, fiber.StatusBadRequest]

/-- The scenario `GET /api/v1/user/abc` over the empty model store. -/
theorem GetUserById_invalid_id_witness :
    (strconv.Atoi (ctxGetAbc.Params "id")).2
        = some { Func := "Atoi", Num := "abc", Err := .InvalidSyntax } ∧
      (wire ModelStore.db).recording.GetUserById ctxGetAbc (ModelStore.empty, [])
        = ({ status := 400, body := .Map [("error", "invalid user id")] },
            (ModelStore.empty, [])) :=
  ⟨by decide, GetUserById_invalid_id (wire ModelStore.db) ctxGetAbc ModelStore.empty []
    { Func := "Atoi", Num := "abc", Err := .InvalidSyntax } (by decide)⟩

/-- C2: when the body parser reports an error, `CreateUser` answers 400 with
the fixed body error = "Invalid input", whatever the parser's error is, and no
service method is called: the log of service calls and the store state are
left as they were. -/
theorem CreateUser_invalid_input {σ : Type} (h : UserHandler σ) (c : Ctx) (s : σ)
    (log : List Call) (e : GoError)
    (hparse : (c.BodyParser {}).2 = some e) :
    h.recording.CreateUser c (s, log)
      = ({ status := 400, body := .Map [("error", "Invalid input")] }, (s, log)) := by
  simp [UserHandler.CreateUser, hparse, fiber.StatusBadRequest]

/-- A create request with a truncated body over the empty model store. -/
theorem CreateUser_invalid_input_witness :
    (ctxBadBody.BodyParser {}).2 = some (errors.New "unexpected end of JSON input") ∧
      (wire ModelStore.db).recording.CreateUser ctxBadBody (ModelStore.empty, [])
        = ({ status := 400, body := .Map [("error", "Invalid input")] },
            (ModelStore.empty, [])) :=
  ⟨rfl, CreateUser_invalid_input _ _ _ _ _ rfl⟩

/-- C3: when the body parses to a request `req`, `CreateUser` calls the create
service exactly once, with `req.Name` and `req.Phone`; the answer is 500 with
error = "Could not create user" when the service returns an error, whatever
the error, and 201 with message = "User created successfully" when it returns
none, whatever the name and phone. -/
theorem CreateUser_parsed {σ : Type} (h : UserHandler σ) (c : Ctx) (s : σ)
    (log : List Call) (req : CreateUserRequest)
    (hparse : c.BodyParser {} = (req, none)) :
    h.recording.CreateUser c (s, log)
      = (if (h.createUserService.Execute req.Name req.Phone s).1.isSome
          then { status := 500, body := .Map [("error", "Could not create user")] }
          else { status := 201, body := .Map [("message", "User created successfully")] },
         ((h.createUserService.Execute req.Name req.Phone s).2,
          log ++ [Call.CreateUser req.Name req.Phone])) := by
  simp only [UserHandler.CreateUser, hparse, UserHandler.recording,
    fiber.StatusInternalServerError, fiber.StatusCreated]
  cases (h.createUserService.Execute req.Name req.Phone s).1 <;> simp

/-- The scenario of creating Ada over the empty model store. -/
theorem CreateUser_parsed_witness :
    ctxCreateAda.BodyParser {} = ({ Name := "Ada", Phone := some "123" }, none) ∧
      (wire ModelStore.db).recording.CreateUser ctxCreateAda (ModelStore.empty, [])
        = ({ status := 201, body := .Map [("message", "User created successfully")] },
           ({ rows := [{ ID := 1, Name := "Ada", Phone := some "123" }], nextID := 2 },
            [Call.CreateUser "Ada" (some "123")])) :=
  ⟨rfl, (CreateUser_parsed (wire ModelStore.db) ctxCreateAda ModelStore.empty []
    { Name := "Ada", Phone := some "123" } rfl).trans (by decide)⟩

/-- C4: when the id path segment parses to the integer `id`, `GetUserById`
calls the query service exactly once, with `id`; when the service returns an
error the answer is 404 with the error's own message under the key error, and
when it returns no error the answer is 200 with the returned user as payload. -/
theorem GetUserById_parsed {σ : Type} (h : UserHandler σ) (c : Ctx) (s : σ)
    (log : List Call) (id : Int)
    (hparse : strconv.Atoi (c.Params "id") = (id, none)) :
    h.recording.GetUserById c (s, log)
      = (match (h.getUserByIdService.Execute id s).1.2 with
          | some err => { status := 404, body := .Map [("error", err.Error)] }
          | none => { status := 200, body := .User (h.getUserByIdService.Execute id s).1.1 },
         ((h.getUserByIdService.Execute id s).2, log ++ [Call.GetUserById id])) := by
  simp only [UserHandler.GetUserById, hparse, UserHandler.recording,
    fiber.StatusNotFound, fiber.StatusOK]
  cases (h.getUserByIdService.Execute id s).1.2 <;> simp

/-- The scenario `GET /api/v1/user/1` once Ada is stored under id 1. -/
theorem GetUserById_parsed_witness :
    strconv.Atoi (ctxGetOne.Params "id") = (1, none) ∧
      (wire ModelStore.db).recording.GetUserById ctxGetOne
          ({ rows := [{ ID := 1, Name := "Ada", Phone := some "123" }], nextID := 2 }, [])
        = ({ status := 200, body := .User (some { ID := 1, Name := "Ada", Phone := some "123" }) },
           ({ rows := [{ ID := 1, Name := "Ada", Phone := some "123" }], nextID := 2 },
            [Call.GetUserById 1])) :=
  ⟨by decide, (GetUserById_parsed (wire ModelStore.db) ctxGetOne
    { rows := [{ ID := 1, Name := "Ada", Phone := some "123" }], nextID := 2 } [] 1
    (by decide)).trans (by decide)⟩

/-! ## Theorems: the services -/

/-- C8: the query service returns exactly the pair the repository returns, and
calls it once with the same id; the create service calls the repository's
`CreateUser` exactly once, with a user whose name and phone are the arguments
and whose id is zero, and returns exactly the error of that call. -/
theorem services_pass_through {σ : Type} (repo : UserRepository σ) (id : Int)
    (name : String) (phone : Option String) (s : σ) (log : List repository.Call) :
    (NewGetUserByIdService repo).Execute id s = repo.GetUserById id s ∧
    (NewGetUserByIdService repo.recording).Execute id (s, log)
      = ((repo.GetUserById id s).1,
         ((repo.GetUserById id s).2, log ++ [repository.Call.GetUserById id])) ∧
    (NewCreateUserService repo).Execute name phone s
      = ((repo.CreateUser { ID := 0, Name := name, Phone := phone } s).1.2,
         (repo.CreateUser { ID := 0, Name := name, Phone := phone } s).2) ∧
    (NewCreateUserService repo.recording).Execute name phone (s, log)
      = ((repo.CreateUser { ID := 0, Name := name, Phone := phone } s).1.2,
         ((repo.CreateUser { ID := 0, Name := name, Phone := phone } s).2,
          log ++ [repository.Call.CreateUser { ID := 0, Name := name, Phone := phone }])) :=
  ⟨rfl, rfl, rfl, rfl⟩

/-! ## Theorems: the repository -/

/-- C5, as the code has it: when the store signals record-not-found the
repository returns a nil user and a new plain error with the message user not
found; on every other store result it returns a non-nil user and the store's
own error unchanged.  So the user is nil exactly when the store signalled
record-not-found. -/
theorem GetUserById_repository_cases {σ : Type} (db : DB σ) (id : Int) (s : σ) :
    (errors.Is (db.First {} id s).1.2 gorm.ErrRecordNotFound = true →
      (NewUserRepository db).GetUserById id s
        = ((none, some (errors.New "user not found")), (db.First {} id s).2)) ∧
    (errors.Is (db.First {} id s).1.2 gorm.ErrRecordNotFound = false →
      (NewUserRepository db).GetUserById id s
        = ((some (db.First {} id s).1.1, (db.First {} id s).1.2), (db.First {} id s).2)) ∧
    (((NewUserRepository db).GetUserById id s).1.1 = none ↔
      errors.Is (db.First {} id s).1.2 gorm.ErrRecordNotFound = true) := by
  simp only [NewUserRepository, repository.userRepository.GetUserById]
  cases h : errors.Is (db.First {} id s).1.2 gorm.ErrRecordNotFound <;> simp

/-- C5 fails as stated: on the empty store the lookup of id 9999 signals
record-not-found, on the failing store it fails with another error, and the
repository returns the same error in both cases, one that does not match the
not-found sentinel. -/
theorem GetUserById_error_not_distinct :
    errors.Is (ModelStore.db.First {} 9999 ModelStore.empty).1.2 gorm.ErrRecordNotFound = true ∧
    errors.Is (failingDB.First {} 9999 ()).1.2 gorm.ErrRecordNotFound = false ∧
    (failingDB.First {} 9999 ()).1.2 ≠ none ∧
    ((NewUserRepository ModelStore.db).GetUserById 9999 ModelStore.empty).1.2
      = ((NewUserRepository failingDB).GetUserById 9999 ()).1.2 ∧
    errors.Is ((NewUserRepository ModelStore.db).GetUserById 9999 ModelStore.empty).1.2
      gorm.ErrRecordNotFound = false := by
  decide

/-! ## Theorems: the pipeline -/

/-- C6: when the id path segment parses to `id` and the store's lookup of `id`
signals record-not-found, the handler over the query service over the
repository answers 404 with the body error = "user not found", and the
repository returns a nil user. -/
theorem GetUserById_pipeline_not_found {σ : Type} (db : DB σ) (c : Ctx) (s : σ) (id : Int)
    (hparse : strconv.Atoi (c.Params "id") = (id, none))
    (hmissing : errors.Is (db.First {} id s).1.2 gorm.ErrRecordNotFound = true) :
    ((wire db).GetUserById c s).1
        = { status := 404, body := .Map [("error", "user not found")] } ∧
      ((NewUserRepository db).GetUserById id s).1.1 = none := by
  simp [wire, NewUserHandler, NewGetUserByIdService, query.getUserByIdService.Execute,
    NewUserRepository, repository.userRepository.GetUserById, UserHandler.GetUserById,
    hparse, hmissing, fiber.StatusNotFound, errors.New, GoError.Error]

/-- The scenario `GET /api/v1/user/9999` over the empty model store. -/
theorem GetUserById_pipeline_not_found_witness :
    strconv.Atoi (ctxGetMissing.Params "id") = (9999, none) ∧
    errors.Is (ModelStore.db.First {} 9999 ModelStore.empty).1.2 gorm.ErrRecordNotFound = true ∧
    ((wire ModelStore.db).GetUserById ctxGetMissing ModelStore.empty).1
        = { status := 404, body := .Map [("error", "user not found")] } ∧
      ((NewUserRepository ModelStore.db).GetUserById 9999 ModelStore.empty).1.1 = none :=
  ⟨by decide, by decide,
    GetUserById_pipeline_not_found ModelStore.db ctxGetMissing ModelStore.empty 9999
      (by decide) (by decide)⟩

/-! ## Theorems: create, then fetch, over the model store -/

/-- The empty model store is well formed. -/
theorem ModelStore.WF_empty : ModelStore.empty.WF := by
  intro u hu
  simp [ModelStore.empty] at hu

/-- An insert keeps the model store well formed. -/
theorem ModelStore.WF_Create (s : ModelStore) (user : User) (hs : s.WF) :
    (ModelStore.Create user s).2.WF := by
  intro u hu
  simp only [ModelStore.Create, List.mem_append, List.mem_singleton] at hu
  rcases hu with hu | hu
  · have := hs u hu
    simp only [ModelStore.Create]
    omega
  · subst hu
    simp [ModelStore.Create]

/-- No stored record carries the next id of a well-formed model store. -/
theorem ModelStore.find_nextID (s : ModelStore) (hs : s.WF) :
    s.rows.find? (fun u => u.ID == s.nextID) = none := by
  rw [List.find?_eq_none]
  intro u hu
  have := hs u hu
  simp only [beq_iff_eq]
  omega

/-- C7: over a well-formed model store, for every name and every optional
phone, the create service succeeds, the store assigns the next id of its
sequence, and the query service on that id then returns, without error, the
user with that id, that name and that phone. -/
theorem create_then_get (s : ModelStore) (name : String) (phone : Option String)
    (hs : s.WF) :
    ((NewCreateUserService (NewUserRepository ModelStore.db)).Execute name phone s).1 = none ∧
    (ModelStore.db.Create { Name := name, Phone := phone } s).1.1.ID = s.nextID ∧
    (NewGetUserByIdService (NewUserRepository ModelStore.db)).Execute s.nextID
        ((NewCreateUserService (NewUserRepository ModelStore.db)).Execute name phone s).2
      = ((some { ID := s.nextID, Name := name, Phone := phone }, none),
         ((NewCreateUserService (NewUserRepository ModelStore.db)).Execute name phone s).2) := by
  refine ⟨rfl, rfl, ?_⟩
  simp only [NewCreateUserService, command.createUserService.Execute, NewUserRepository,
    repository.userRepository.CreateUser, ModelStore.db, ModelStore.Create,
    NewGetUserByIdService, query.getUserByIdService.Execute,
    repository.userRepository.GetUserById, ModelStore.First]
  rw [List.find?_append, ModelStore.find_nextID s hs]
  simp [errors.Is]

/-- Creating Ada without a phone in the empty model store, then fetching id 1. -/
theorem create_then_get_witness :
    ModelStore.empty.WF ∧
    ((NewCreateUserService (NewUserRepository ModelStore.db)).Execute "Ada" none
        ModelStore.empty).1 = none ∧
    (ModelStore.db.Create { Name := "Ada", Phone := none } ModelStore.empty).1.1.ID
      = ModelStore.empty.nextID ∧
    (NewGetUserByIdService (NewUserRepository ModelStore.db)).Execute ModelStore.empty.nextID
        ((NewCreateUserService (NewUserRepository ModelStore.db)).Execute "Ada" none
          ModelStore.empty).2
      = ((some { ID := ModelStore.empty.nextID, Name := "Ada", Phone := none }, none),
         ((NewCreateUserService (NewUserRepository ModelStore.db)).Execute "Ada" none
          ModelStore.empty).2) :=
  ⟨ModelStore.WF_empty, create_then_get ModelStore.empty "Ada" none ModelStore.WF_empty⟩

/-! ## Theorems: configuration and `main` -/

/-- C9 on the code: with `SERVICE_PORT` not set, `main` does not reach the
default port; `GetString` panics on the missing key. -/
theorem main_port_unset_panics :
    environment.IsSet (fun key => if key = "DB_DSN" then some "postgres://localhost/app" else none)
        environment.ServicePort = false ∧
    main worldPortUnset = Outcome.Panic "failed to get environment key: SERVICE_PORT" := by
  decide

/-- With `SERVICE_PORT` not set, no run of `main` gets as far as listening,
whatever the rest of the world is. -/
theorem main_port_unset_never_serves (w : World) (v : environment.Settings)
    (hread : w.ReadInConfig "." = .ok v)
    (hunset : environment.IsSet v environment.ServicePort = false) (addr : String) :
    main w ≠ Outcome.Served addr := by
  have hcfg : environment.New w.ReadInConfig 0 (by decide) = .ok v := by
    simp [environment.New, environment.New.configDir, hread]
  have hport : environment.GetString v environment.ServicePort
      = .error ("failed to get environment key: " ++ environment.ServicePort) := by
    simp [environment.GetString, hunset]
  unfold main
  rw [hcfg]
  simp only [hport]
  intro h
  split at h
  · exact Outcome.noConfusion h
  · split at h
    · exact Outcome.noConfusion h
    · split at h
      · exact Outcome.noConfusion h
      · exact Outcome.noConfusion h

/-- The default port is used when `SERVICE_PORT` is set to the empty string. -/
theorem main_port_empty_serves_default :
    main worldPortEmpty = Outcome.Served ":9090" := by
  decide

namespace environment

/-- Joining one more segment appends a slash and the segment. -/
theorem intercalate_go_snoc (k : Nat) (acc : String) :
    String.intercalate.go acc "/" (List.replicate (k + 1) "..")
      = String.intercalate.go acc "/" (List.replicate k "..") ++ "/.." := by
  induction k generalizing acc with
  | zero =>
    simp only [List.replicate, String.intercalate.go, String.append_assoc]
    rfl
  | succ k ih =>
    rw [List.replicate_succ, String.intercalate.go, ih, List.replicate_succ,
      String.intercalate.go]

/-- One more parent segment appends a slash and two dots. -/
theorem parents_succ (n : Nat) (hn : 1 ≤ n) : parents (n + 1) = parents n ++ "/.." := by
  obtain ⟨k, rfl⟩ : ∃ k, n = k + 1 := ⟨n - 1, by omega⟩
  simp only [parents]
  rw [List.replicate_succ, String.intercalate, intercalate_go_snoc, List.replicate_succ,
    String.intercalate]

/-- The path of `n` segments, for `n` at least 1, has `3 * n - 1` characters. -/
theorem parents_length (n : Nat) (hn : 1 ≤ n) : (parents n).length = 3 * n - 1 := by
  induction n with
  | zero => omega
  | succ k ih =>
    rcases Nat.eq_zero_or_pos k with rfl | hk
    · decide
    · rw [parents_succ k hk, String.length_append, ih hk]
      have : "/..".length = 3 := by decide
      omega

/-- Invariant of the loop of `New`: entered at `i` with the path of `i` segments,
it ends with the path of `dirDepth` segments. -/
theorem New.loop_parents (dirDepth : Nat) (hd : dirDepth < 2 ^ 64) (k i : Nat)
    (hk : dirDepth - i = k) (h1 : 1 ≤ i) (hi : i ≤ dirDepth) :
    New.loop dirDepth hd i (parents i) = parents dirDepth := by
  induction k generalizing i with
  | zero =>
    have : i = dirDepth := by omega
    subst this
    rw [New.loop]
    simp
  | succ k ih =>
    rw [New.loop]
    have hlt : i < dirDepth := by omega
    have hmod : (i + 1) % 2 ^ 64 = i + 1 := Nat.mod_eq_of_lt (by omega)
    rw [if_pos hlt, hmod, ← parents_succ i h1]
    exact ih (i + 1) (by omega) (by omega) (by omega)

/-- C10: `New` computes the configuration directory "." for depth 0 and, for
every depth `n` of at least 1, the `n` segments ".." joined by "/", a string of
`3 * n - 1` characters; the loop is a total function of the depth. -/
theorem New_configDir (n : Nat) (hn : n < 2 ^ 64) :
    (n = 0 → New.configDir n hn = ".") ∧
    (1 ≤ n → New.configDir n hn = "/".intercalate (List.replicate n "..") ∧
      (New.configDir n hn).length = 3 * n - 1) := by
  constructor
  · intro h0
    simp [New.configDir, h0]
  · intro h1
    have hne : n ≠ 0 := by omega
    have hdir : New.configDir n hn = parents n := by
      simp only [New.configDir, if_neg hne]
      exact New.loop_parents n hn (n - 1) 1 rfl (le_refl 1) h1
    exact ⟨hdir, by rw [hdir]; exact parents_length n h1⟩

/-- Depth 3 gives the directory "../../..", of 8 characters. -/
theorem New_configDir_witness :
    3 < 2 ^ 64 ∧ New.configDir 3 (by decide) = "../../.." ∧
      (New.configDir 3 (by decide)).length = 8 :=
  ⟨by decide, ((New_configDir 3 (by decide)).2 (by decide)).1.trans (by decide),
    ((New_configDir 3 (by decide)).2 (by decide)).2⟩
end environment

end Boilerplate
